import Mathlib

/-!
Verification of the OFIQ build-orchestration script
(`src/scripts/build_ofiq.py`, class `OFIQBuilder`).

The script is sequential command dispatch: it parses flags into a mutable
builder object, derives environment fields from the chosen enums, probes
external tools, acquires dependencies by one of two strategies, invokes the
build-file generator and the build driver, and verifies the output artifacts.

We embed it as explicit state passing.  The mutable `self` of the Python
class becomes the structure `OFIQBuilder`; the outside world (filesystem
existence, subprocess success, captured stdout) becomes the structure
`World` of oracles; every observable side effect (a printed line, a
tool-version probe, a `Path.exists` test, a `shutil.rmtree`, a `mkdir`, a
`subprocess.run` of a build command, a directory listing) is recorded as an
`Event` in a trace; every `sys.exit(1)` becomes an `Except.error` carrying a
`BuildError` describing which abort fired (all of them map to exit status 1).

Exception texts interpolated from Python exception objects (the `{e}` parts
of failure prints) are elided from the recorded message strings; everything
else about control flow, command construction and ordering follows the
source line by line.
-/

/-- One observable effect of the script, in program order. -/
inductive Event where
  | msg (line : String)
  | probeTool (tool : String)
  | checkPath (path : String)
  | rmtree (path : String)
  | mkdir (path : String)
  | runCmd (cmd : List String) (cwd : String)
  | listDir (path : String) (files : List String)
deriving DecidableEq, Repr

/-- The distinct `sys.exit(1)` sites of the script.  Every constructor
corresponds to process exit status 1 in the Python source. -/
inductive BuildError where
  | conanNotFound
  | missingTools (tools : List String)
  | conanFailed
  | depsMissing (deps : List String)
  | opencvFailed
  | gtestFailed
  | onnxFailed
  | cmakeConfigureFailed
  | buildFailed
  | libMissing
deriving DecidableEq, Repr

/-- Oracles for everything the script observes about its environment:
whether a `tool --version` probe succeeds, the version text it prints,
`Path.exists`, whether a build subprocess exits 0 (keyed by command list and
working directory), directory listings, file sizes, and the platform test. -/
structure World where
  probeOk : String → Bool
  versionOf : String → String
  pathExists : String → Bool
  cmdOk : List String → String → Bool
  dirContents : String → List String
  fileSize : String → Nat
  isWindows : Bool

/-- The parsed command line (`argparse` result).  `arch` is constrained by
`argparse` to `x64`/`x86` and `compiler` to `16`/`17`; theorems that need
valid values state them as hypotheses. -/
structure Args where
  arch : String
  compiler : Nat
  debug : Bool
  no_conan : Bool
  no_download : Bool
  skip_deps : Bool
deriving DecidableEq, Repr

/-- The default command line: no flags given. -/
def defaultArgs : Args :=
  { arch := "x64", compiler := 16, debug := false,
    no_conan := false, no_download := false, skip_deps := false }

/-- The mutable fields of the Python `OFIQBuilder` object.  `skip_deps` and
`conan_path` are not assigned in `__init__`; the script assigns them in
`parse_arguments` resp. `check_prerequisites` before any read, so we give
them inert initial values here. -/
structure OFIQBuilder where
  architecture : String
  compiler_version : Nat
  use_conan : Bool
  download : Bool
  skip_deps : Bool
  config : String
  vs_version : String
  install_dir : String
  generator : String
  compiler_flags : String
  conan_set_arch : String
  onnxruntime_flags : String
  set_architecture : String
  conan_path : String
deriving DecidableEq, Repr

/-- `OFIQBuilder.__init__`. -/
def initBuilder : OFIQBuilder :=
  { architecture := "x64"
    compiler_version := 16
    use_conan := true
    download := true
    skip_deps := false
    config := "Release"
    vs_version := "vc16"
    install_dir := "install_x86_64"
    generator := "Visual Studio 16 2019"
    compiler_flags := ""
    conan_set_arch := ""
    onnxruntime_flags := ""
    set_architecture := "-A x64"
    conan_path := "" }

/-- The repository root (`Path(__file__).parent.parent`), kept abstract as a
fixed token. -/
def root_dir : String := "ROOT"

/-- `pathlib` `/` join. -/
def joinP (a b : String) : String := a ++ "/" ++ b

def build_dir_path : String := joinP (joinP root_dir "build") "build_win"

def conan_cache_dir : String := joinP (joinP root_dir "build") "conan"

def opencv_dir : String := joinP (joinP root_dir "extern") "opencv-4.5.5"

def gtest_dir : String := joinP (joinP root_dir "extern") "googletest"

def onnx_dir : String := joinP (joinP root_dir "extern") "onnxruntime"

def onnx_prebuilt : String := joinP (joinP root_dir "extern") "onnxruntime-win-x64-1.17.3"

namespace OFIQBuilder

/-- `OFIQBuilder.parse_arguments`: apply the parsed flags to the builder. -/
def parse_arguments (a : Args) (s : OFIQBuilder) : OFIQBuilder :=
  { s with
    architecture := a.arch
    compiler_version := a.compiler
    config := if a.debug then "Debug" else "Release"
    use_conan := !a.no_conan
    download := !a.no_download
    skip_deps := a.skip_deps }

/-- `OFIQBuilder.setup_environment`: print the configuration, then derive
the architecture-dependent fields and the compiler-dependent fields. -/
def setup_environment (s : OFIQBuilder) : List Event × OFIQBuilder :=
  let evs := [Event.msg "Setting up build environment:",
    Event.msg ("  Architecture: " ++ s.architecture),
    Event.msg ("  Compiler: Visual Studio " ++ toString s.compiler_version),
    Event.msg ("  Configuration: " ++ s.config),
    Event.msg ("  Use Conan: " ++ toString s.use_conan),
    Event.msg ("  Download: " ++ toString s.download)]
  let s1 :=
    if s.architecture = "x86" then
      { s with conan_set_arch := "-s:a arch=x86"
               install_dir := "install_x86"
               onnxruntime_flags := "--x86"
               set_architecture := "-A Win32" }
    else
      { s with conan_set_arch := ""
               install_dir := "install_x86_64"
               onnxruntime_flags := ""
               set_architecture := "-A x64" }
  let s2 :=
    if s1.compiler_version = 16 then
      { s1 with generator := "Visual Studio 16 2019"
                compiler_flags := ""
                vs_version := "vc16" }
    else
      { s1 with generator := "Visual Studio 17 2022"
                compiler_flags := "-s:a compiler.version=193"
                vs_version := "vc17" }
  (evs, s2)

/-- The tuple of every derived field assigned by `setup_environment`. -/
def derivedOf (s : OFIQBuilder) :
    String × String × String × String × String × String × String :=
  (s.generator, s.install_dir, s.set_architecture, s.vs_version,
   s.compiler_flags, s.conan_set_arch, s.onnxruntime_flags)

end OFIQBuilder

/-- Claim C1: for every valid combination of architecture, compiler-version
and build-type, the derived fields (generator, install-directory,
architecture flag, compiler-version tag, compiler flags, package-manager
architecture flag, inference-runtime flag) are a pure deterministic function
of the architecture and compiler-version enums — any two builder states
agreeing on those enums yield identical derived fields after
`setup_environment`, regardless of every other field — and the defaults
(x64, 16, Release) yield install-directory `install_x86_64`, generator
`Visual Studio 16 2019`, and architecture flag `-A x64`. -/
theorem derived_fields_deterministic (s1 s2 : OFIQBuilder)
    (ha : s1.architecture = s2.architecture)
    (hc : s1.compiler_version = s2.compiler_version) :
    OFIQBuilder.derivedOf (OFIQBuilder.setup_environment s1).2 =
      OFIQBuilder.derivedOf (OFIQBuilder.setup_environment s2).2 ∧
    (OFIQBuilder.setup_environment
        (OFIQBuilder.parse_arguments defaultArgs initBuilder)).2.install_dir =
      "install_x86_64" ∧
    (OFIQBuilder.setup_environment
        (OFIQBuilder.parse_arguments defaultArgs initBuilder)).2.generator =
      "Visual Studio 16 2019" ∧
    (OFIQBuilder.setup_environment
        (OFIQBuilder.parse_arguments defaultArgs initBuilder)).2.set_architecture =
      "-A x64" := by
  refine ⟨?_, by decide, by decide, by decide⟩
  simp only [OFIQBuilder.setup_environment, OFIQBuilder.derivedOf, ha, hc]
  by_cases h86 : s2.architecture = "x86" <;>
    by_cases h16 : s2.compiler_version = 16 <;>
      simp [h86, h16]

/-- Witness for C1 at two concrete builder states sharing the enums. -/
theorem derived_fields_deterministic_witness :
    initBuilder.architecture =
      ({ initBuilder with install_dir := "junk" } : OFIQBuilder).architecture ∧
    OFIQBuilder.derivedOf
        (OFIQBuilder.setup_environment initBuilder).2 =
      OFIQBuilder.derivedOf
        (OFIQBuilder.setup_environment
          ({ initBuilder with install_dir := "junk" } : OFIQBuilder)).2 :=
  ⟨rfl, (derived_fields_deterministic initBuilder
    { initBuilder with install_dir := "junk" } rfl rfl).1⟩

/-- Counterexample to claim C2 as stated: switching the architecture enum
from x64 to x86 with all other inputs fixed also changes the
package-manager architecture flag (`conan_set_arch` goes from the empty
string to `-s:a arch=x86`), which the claim asserts is unchanged. -/
theorem arch_switch_changes_conan_set_arch :
    ¬ ((OFIQBuilder.setup_environment
          ({ initBuilder with architecture := "x86" } : OFIQBuilder)).2.conan_set_arch =
        (OFIQBuilder.setup_environment initBuilder).2.conan_set_arch ∧
       (OFIQBuilder.setup_environment
          ({ initBuilder with architecture := "x86" } : OFIQBuilder)).2.onnxruntime_flags =
        (OFIQBuilder.setup_environment initBuilder).2.onnxruntime_flags) := by
  decide

/-- Claim C2 (amended): switching the architecture enum to x86 with all
other inputs fixed changes the install-directory, the architecture flag,
the package-manager architecture flag and the inference-runtime flag, and
leaves the generator, the compiler-version tag and the compiler flags
unchanged. -/
theorem arch_switch_field_effects (s : OFIQBuilder) :
    ((OFIQBuilder.setup_environment
        ({ s with architecture := "x86" } : OFIQBuilder)).2.install_dir ≠
      (OFIQBuilder.setup_environment
        ({ s with architecture := "x64" } : OFIQBuilder)).2.install_dir) ∧
    ((OFIQBuilder.setup_environment
        ({ s with architecture := "x86" } : OFIQBuilder)).2.set_architecture ≠
      (OFIQBuilder.setup_environment
        ({ s with architecture := "x64" } : OFIQBuilder)).2.set_architecture) ∧
    ((OFIQBuilder.setup_environment
        ({ s with architecture := "x86" } : OFIQBuilder)).2.conan_set_arch ≠
      (OFIQBuilder.setup_environment
        ({ s with architecture := "x64" } : OFIQBuilder)).2.conan_set_arch) ∧
    ((OFIQBuilder.setup_environment
        ({ s with architecture := "x86" } : OFIQBuilder)).2.onnxruntime_flags ≠
      (OFIQBuilder.setup_environment
        ({ s with architecture := "x64" } : OFIQBuilder)).2.onnxruntime_flags) ∧
    ((OFIQBuilder.setup_environment
        ({ s with architecture := "x86" } : OFIQBuilder)).2.generator =
      (OFIQBuilder.setup_environment
        ({ s with architecture := "x64" } : OFIQBuilder)).2.generator) ∧
    ((OFIQBuilder.setup_environment
        ({ s with architecture := "x86" } : OFIQBuilder)).2.vs_version =
      (OFIQBuilder.setup_environment
        ({ s with architecture := "x64" } : OFIQBuilder)).2.vs_version) ∧
    ((OFIQBuilder.setup_environment
        ({ s with architecture := "x86" } : OFIQBuilder)).2.compiler_flags =
      (OFIQBuilder.setup_environment
        ({ s with architecture := "x64" } : OFIQBuilder)).2.compiler_flags) := by
  by_cases h16 : s.compiler_version = 16 <;>
    simp [OFIQBuilder.setup_environment, h16]

namespace OFIQBuilder

/-- The fallback install locations probed for the package manager. -/
def conan_paths : List String :=
  ["C:\\tools\\conan-2.21.0-windows-x86_64\\conan.exe",
   "C:\\Program Files\\Conan\\conan.exe",
   "C:\\conan\\conan.exe"]

/-- The fallback loop of `check_prerequisites`: for each candidate path, test
existence; if it exists, probe its version; the first path whose probe
succeeds wins.  (The Python code assigns `self.conan_path` before the probe
even when the probe then fails, but on overall failure the process exits, so
only the winning assignment is observable.) -/
def findConanFallback (w : World) : List String → List Event × Option String
  | [] => ([], none)
  | p :: rest =>
    if w.pathExists p then
      if w.probeOk p then
        ([Event.checkPath p, Event.probeTool p,
          Event.msg ("  ✓ conan: " ++ w.versionOf p ++ " (found at " ++ p ++ ")")],
         some p)
      else
        let r := findConanFallback w rest
        (Event.checkPath p :: Event.probeTool p :: r.1, r.2)
    else
      let r := findConanFallback w rest
      (Event.checkPath p :: r.1, r.2)

/-- The always-required tools of `check_prerequisites`. -/
def required_tools : List String := ["cmake"]

/-- `OFIQBuilder.check_prerequisites`: when Conan is in use, locate it in
the search path and then in the fallback locations, exiting if it is nowhere;
then probe each always-required tool, exiting if any is missing; finally warn
(only) when not on Windows. -/
def check_prerequisites (w : World) (s : OFIQBuilder) :
    List Event × Except BuildError OFIQBuilder :=
  let e0 := [Event.msg "Checking prerequisites..."]
  let conanRes : List Event × Except BuildError OFIQBuilder :=
    if s.use_conan then
      if w.probeOk "conan" then
        ([Event.probeTool "conan",
          Event.msg ("  ✓ conan: " ++ w.versionOf "conan")],
         Except.ok { s with conan_path := "conan" })
      else
        match findConanFallback w conan_paths with
        | (evs, some p) =>
          (Event.probeTool "conan" :: evs, Except.ok { s with conan_path := p })
        | (evs, none) =>
          (Event.probeTool "conan" :: evs ++
            [Event.msg "  ✗ conan: Not found in PATH or common locations",
             Event.msg "  Please ensure conan is installed and available in PATH, or specify the path manually"],
           Except.error BuildError.conanNotFound)
    else ([], Except.ok s)
  match conanRes with
  | (evs, Except.error e) => (e0 ++ evs, Except.error e)
  | (evs, Except.ok s1) =>
    let toolEvs := required_tools.foldr
      (fun t acc =>
        Event.probeTool t ::
        (if w.probeOk t then
          Event.msg ("  ✓ " ++ t ++ ": " ++ w.versionOf t)
         else
          Event.msg ("  ✗ " ++ t ++ ": Not found")) :: acc) []
    let missing := required_tools.filter (fun t => !w.probeOk t)
    if missing.isEmpty then
      let warn := if w.isWindows then []
        else [Event.msg "Warning: This script is designed for Windows. Building on other platforms may not work correctly."]
      (e0 ++ evs ++ toolEvs ++ warn ++ [Event.msg "✓ All prerequisites satisfied"],
       Except.ok s1)
    else
      (e0 ++ evs ++ toolEvs ++
        [Event.msg ("Error: Missing required tools: " ++ String.intercalate ", " missing),
         Event.msg "Please install the missing tools and try again."],
       Except.error (BuildError.missingTools missing))

/-- The profile file `_build_with_conan` selects by build configuration. -/
def conan_profile (s : OFIQBuilder) : String :=
  if s.config = "Release" then "conan_profile_release.txt" else "conan_profile_debug.txt"

/-- The absolute path of the selected profile file. -/
def conan_profile_path (s : OFIQBuilder) : String :=
  joinP (joinP root_dir "conan") (conan_profile s)

/-- The `conan install` command line built by `_build_with_conan`:
base command plus the compiler flags and the architecture flags, each
appended (whitespace-split) when the corresponding string is non-empty. -/
def conan_cmd (s : OFIQBuilder) : List String :=
  let base := [s.conan_path, "install", joinP (joinP root_dir "conan") "conanfile.txt",
    "--build", "missing",
    "--profile:build", conan_profile_path s,
    "--profile:host", conan_profile_path s,
    "--output-folder=" ++ joinP (joinP root_dir "build") "conan"]
  let base := if s.compiler_flags = "" then base else base ++ s.compiler_flags.splitOn " "
  if s.conan_set_arch = "" then base else base ++ s.conan_set_arch.splitOn " "

/-- `OFIQBuilder._build_with_conan`: clear the local Conan cache directory
if present, then run `conan install`; a failing subprocess is fatal. -/
def build_with_conan (w : World) (s : OFIQBuilder) :
    List Event × Except BuildError OFIQBuilder :=
  let cleanEvs := Event.checkPath conan_cache_dir ::
    (if w.pathExists conan_cache_dir then
      [Event.msg "  Cleaning Conan cache...", Event.rmtree conan_cache_dir]
     else [])
  let cmd := conan_cmd s
  let runEvs := [Event.msg ("  Running: " ++ String.intercalate " " cmd),
    Event.runCmd cmd root_dir]
  if w.cmdOk cmd root_dir then
    (cleanEvs ++ runEvs ++ [Event.msg "  ✓ Conan dependencies built successfully"],
     Except.ok s)
  else
    (cleanEvs ++ runEvs ++ [Event.msg "  ✗ Conan build failed"],
     Except.error BuildError.conanFailed)

/-- The OpenCV configure command of `_build_from_source`. -/
def opencv_cfg_cmd (s : OFIQBuilder) : List String :=
  ["cmake", "-S", ".", "-G", s.generator, s.set_architecture, "-B", "build",
   "-DBUILD_LIST=core,calib3d,imgcodecs,improc,dnn,ml",
   "-DBUILD_opencv_apps=OFF",
   "-DBUILD_opencv_java=OFF", "-DBUILD_opencv_python=OFF", "-DWITH_FFMPEG=OFF",
   "-DWITH_TIFF=OFF",
   "-DWITH_WEBP=OFF", "-DBUILD_IPP=OFF", "-DWITH_IPP=OFF",
   "-DWITH_OPENCL=OFF", "-DWITH_LAPACK=OFF", "-DWITH_QUIRC=OFF",
   "-DBUILD_ZLIB=ON", "-DWITH_ZLIB=ON",
   "-DBUILD_PNG=ON", "-DWITH_PNG=ON",
   "-DBUILD_JPEG=ON", "-DWITH_JPEG=ON",
   "-DBUILD_OPENEXR=OFF", "-DWITH_OPENEXR=OFF",
   "-DBUILD_SHARED_LIBS=OFF", "-DBUILD_WITH_STATIC_CRT=OFF",
   "-DWITH_ADE=OFF", "-DCMAKE_INSTALL_PREFIX=./build/install"]

/-- The OpenCV build-and-install command of `_build_from_source`. -/
def opencv_build_cmd (s : OFIQBuilder) : List String :=
  ["cmake", "--build", "build", "--config", s.config, "--target", "install", "-j", "8"]

/-- The GoogleTest configure command of `_build_from_source`. -/
def gtest_cfg_cmd (s : OFIQBuilder) : List String :=
  ["cmake", "-S", ".", "-G", s.generator, s.set_architecture, "-B", "build",
   "-DBUILD_GMOCK=OFF", "-DINSTALL_GTEST=OFF", "-DBUILD_SHARED_LIBS=ON"]

/-- The GoogleTest build command of `_build_from_source`. -/
def gtest_build_cmd (s : OFIQBuilder) : List String :=
  ["cmake", "--build", "build/googletest", "--config", s.config]

/-- The ONNX Runtime build command of `_build_from_source`, with the
architecture flag appended when non-empty. -/
def onnx_cmd (s : OFIQBuilder) : List String :=
  let base := ["build.bat", "--config", s.config, "--build_shared_lib", "--parallel",
    "--compile_no_warning_as_error", "--skip_submodule_sync",
    "--cmake_generator", "Visual Studio 17 2022", "--update", "--build"]
  if s.onnxruntime_flags = "" then base else base ++ [s.onnxruntime_flags]

/-- `OFIQBuilder._build_from_source`: check the three dependency trees
(the ONNX Runtime check accepts the source tree or the prebuilt tree, with
Python `or` short-circuiting the second existence test), abort with install
instructions if any is missing, then build OpenCV, GoogleTest and ONNX
Runtime in that order, each subprocess fatal on failure.  The ONNX Runtime
build always runs in the source tree `extern/onnxruntime`. -/
def build_from_source (w : World) (s : OFIQBuilder) :
    List Event × Except BuildError OFIQBuilder :=
  let onnxEvs := if w.pathExists onnx_dir then [Event.checkPath onnx_dir]
    else [Event.checkPath onnx_dir, Event.checkPath onnx_prebuilt]
  let onnxPresent := w.pathExists onnx_dir || w.pathExists onnx_prebuilt
  let checkEvs := [Event.checkPath opencv_dir, Event.checkPath gtest_dir] ++ onnxEvs
  let available := (if w.pathExists opencv_dir then ["OpenCV"] else []) ++
    (if w.pathExists gtest_dir then ["GoogleTest"] else []) ++
    (if onnxPresent then ["ONNX Runtime"] else [])
  let missing := (if w.pathExists opencv_dir then [] else ["OpenCV"]) ++
    (if w.pathExists gtest_dir then [] else ["GoogleTest"]) ++
    (if onnxPresent then [] else ["ONNX Runtime"])
  let e0 := [Event.msg "  Building dependencies from source..."] ++ checkEvs ++
    [Event.msg ("  Available dependencies: " ++
      (if available.isEmpty then "None" else String.intercalate ", " available)),
     Event.msg ("  Missing dependencies: " ++
      (if missing.isEmpty then "None" else String.intercalate ", " missing))]
  if missing.isEmpty then
    let opencv_build_dir := joinP opencv_dir "build"
    let e1 := e0 ++ [Event.msg "  ✓ All external dependencies found",
      Event.msg "  Building OpenCV...", Event.checkPath opencv_build_dir] ++
      (if w.pathExists opencv_build_dir then [Event.rmtree opencv_build_dir] else [])
    if w.cmdOk (opencv_cfg_cmd s) opencv_dir = false then
      (e1 ++ [Event.runCmd (opencv_cfg_cmd s) opencv_dir,
        Event.msg "  ✗ OpenCV build failed"],
       Except.error BuildError.opencvFailed)
    else if w.cmdOk (opencv_build_cmd s) opencv_dir = false then
      (e1 ++ [Event.runCmd (opencv_cfg_cmd s) opencv_dir,
        Event.runCmd (opencv_build_cmd s) opencv_dir,
        Event.msg "  ✗ OpenCV build failed"],
       Except.error BuildError.opencvFailed)
    else
      let e2 := e1 ++ [Event.runCmd (opencv_cfg_cmd s) opencv_dir,
        Event.runCmd (opencv_build_cmd s) opencv_dir,
        Event.msg "  ✓ OpenCV built successfully",
        Event.msg "  Building GoogleTest..."]
      if w.cmdOk (gtest_cfg_cmd s) gtest_dir = false then
        (e2 ++ [Event.runCmd (gtest_cfg_cmd s) gtest_dir,
          Event.msg "  ✗ GoogleTest build failed"],
         Except.error BuildError.gtestFailed)
      else if w.cmdOk (gtest_build_cmd s) gtest_dir = false then
        (e2 ++ [Event.runCmd (gtest_cfg_cmd s) gtest_dir,
          Event.runCmd (gtest_build_cmd s) gtest_dir,
          Event.msg "  ✗ GoogleTest build failed"],
         Except.error BuildError.gtestFailed)
      else
        let e3 := e2 ++ [Event.runCmd (gtest_cfg_cmd s) gtest_dir,
          Event.runCmd (gtest_build_cmd s) gtest_dir,
          Event.msg "  ✓ GoogleTest built successfully",
          Event.msg "  Building ONNX Runtime..."]
        if w.cmdOk (onnx_cmd s) onnx_dir = false then
          (e3 ++ [Event.runCmd (onnx_cmd s) onnx_dir,
            Event.msg "  ✗ ONNX Runtime build failed"],
           Except.error BuildError.onnxFailed)
        else
          (e3 ++ [Event.runCmd (onnx_cmd s) onnx_dir,
            Event.msg "  ✓ ONNX Runtime built successfully"],
           Except.ok s)
  else
    (e0 ++
      [Event.msg ("  ❌ Cannot build from source - missing dependencies: " ++
        String.intercalate ", " missing),
       Event.msg "  To build from source, you need to:",
       Event.msg "  1. Download external dependencies using:",
       Event.msg "     cmake -P ../cmake/DownloadExternalSourceCode.cmake",
       Event.msg "  2. Or download the full OFIQ release from the ISO portal",
       Event.msg "  3. Or use Conan (remove --no-conan flag)",
       Event.msg "  Alternatively, you can try to build with available dependencies only:",
       Event.msg "  (This may work if you only need basic functionality)",
       Event.msg "  python build_ofiq.py --no-conan --skip-deps"],
     Except.error (BuildError.depsMissing missing))

/-- `OFIQBuilder.build_dependencies`: short-circuit when `--skip-deps` was
given, otherwise dispatch on the dependency strategy. -/
def build_dependencies (w : World) (s : OFIQBuilder) :
    List Event × Except BuildError OFIQBuilder :=
  if s.skip_deps then
    ([Event.msg "Skipping dependency building (--skip-deps specified)",
      Event.msg "  Using available dependencies only"], Except.ok s)
  else
    let e0 := [Event.msg ("Building dependencies (Conan: " ++ toString s.use_conan ++ ")...")]
    let r := if s.use_conan then build_with_conan w s else build_from_source w s
    (e0 ++ r.1, r.2)

end OFIQBuilder

namespace OFIQBuilder

/-- The CMake configure command of `configure_cmake`. -/
def cmake_cfg_cmd (s : OFIQBuilder) : List String :=
  ["cmake", "-S", ".", "-G", s.generator, s.set_architecture, "-B", build_dir_path,
   "-DCMAKE_INSTALL_PREFIX=" ++ s.install_dir,
   "-DDOWNLOAD_ONNX=" ++ (if s.use_conan then "OFF" else "ON"),
   "-DUSE_CONAN=" ++ (if s.use_conan then "ON" else "OFF"),
   "-DOS=windows",
   "-DCMAKE_BUILD_TYPE=" ++ s.config,
   "-DARCHITECTURE=" ++ s.architecture,
   "-DDOWNLOAD_MODELS_AND_IMAGES=" ++ (if s.download then "ON" else "OFF"),
   "-DVS_VERSION=" ++ s.vs_version]

/-- `OFIQBuilder.configure_cmake`: clear and recreate the build directory,
then invoke the build-file generator; fatal on non-zero exit. -/
def configure_cmake (w : World) (s : OFIQBuilder) :
    List Event × Except BuildError OFIQBuilder :=
  let evs := [Event.msg "Configuring CMake...", Event.checkPath build_dir_path] ++
    (if w.pathExists build_dir_path then
      [Event.msg ("  Removing existing build directory: " ++ build_dir_path),
       Event.rmtree build_dir_path]
     else []) ++
    [Event.mkdir build_dir_path,
     Event.msg ("  Running: " ++ String.intercalate " " (cmake_cfg_cmd s)),
     Event.runCmd (cmake_cfg_cmd s) root_dir]
  if w.cmdOk (cmake_cfg_cmd s) root_dir then
    (evs ++ [Event.msg "  ✓ CMake configuration successful"], Except.ok s)
  else
    (evs ++ [Event.msg "  ✗ CMake configuration failed"],
     Except.error BuildError.cmakeConfigureFailed)

/-- The build-driver command of `build_project`. -/
def build_cmd (s : OFIQBuilder) : List String :=
  ["cmake", "--build", build_dir_path, "--config", s.config,
   "--target", "install", "-j", "8"]

/-- `OFIQBuilder.build_project`: invoke the build driver on the generated
build directory; fatal on non-zero exit. -/
def build_project (w : World) (s : OFIQBuilder) :
    List Event × Except BuildError OFIQBuilder :=
  let evs := [Event.msg ("Building OFIQ project (" ++ s.config ++ ")..."),
    Event.msg ("  Running: " ++ String.intercalate " " (build_cmd s)),
    Event.runCmd (build_cmd s) root_dir]
  if w.cmdOk (build_cmd s) root_dir then
    (evs ++ [Event.msg "  ✓ OFIQ build successful"], Except.ok s)
  else
    (evs ++ [Event.msg "  ✗ OFIQ build failed"], Except.error BuildError.buildFailed)

/-- The expected install-bin directory, a function of the install directory
and the build configuration. -/
def install_bin_dir (s : OFIQBuilder) : String :=
  if s.config = "Debug" then
    joinP (joinP (joinP root_dir s.install_dir) "Debug") "bin"
  else
    joinP (joinP (joinP root_dir s.install_dir) "Release") "bin"

/-- The expected shared-library artifact path. -/
def ofiq_lib_path (s : OFIQBuilder) : String :=
  joinP (install_bin_dir s) "ofiq_lib.dll"

/-- The expected sample-executable artifact path. -/
def sample_app_path (s : OFIQBuilder) : String :=
  joinP (install_bin_dir s) "OFIQSampleApp.exe"

/-- `OFIQBuilder.verify_build`: a missing shared library is fatal, after
listing the directory contents when the directory exists; a missing sample
executable is only warned about. -/
def verify_build (w : World) (s : OFIQBuilder) :
    List Event × Except BuildError OFIQBuilder :=
  let e0 := [Event.msg "Verifying build...", Event.checkPath (ofiq_lib_path s)]
  if w.pathExists (ofiq_lib_path s) then
    let e1 := e0 ++ [Event.msg ("  ✓ ofiq_lib.dll found: " ++ ofiq_lib_path s),
      Event.msg ("  ✓ File size: " ++ toString (w.fileSize (ofiq_lib_path s)) ++ " bytes"),
      Event.checkPath (sample_app_path s)]
    let e2 := if w.pathExists (sample_app_path s) then
        e1 ++ [Event.msg ("  ✓ OFIQSampleApp.exe found: " ++ sample_app_path s)]
      else
        e1 ++ [Event.msg "  ✗ OFIQSampleApp.exe not found"]
    (e2 ++ [Event.msg "  ✓ Build verification completed successfully"], Except.ok s)
  else
    let e1 := e0 ++ [Event.msg ("  ✗ ofiq_lib.dll not found at: " ++ ofiq_lib_path s),
      Event.checkPath (install_bin_dir s)]
    let e2 := if w.pathExists (install_bin_dir s) then
        e1 ++ [Event.listDir (install_bin_dir s) (w.dirContents (install_bin_dir s))]
      else e1
    (e2, Except.error BuildError.libMissing)

/-- Sequencing of stages: on error stop, on success append the next stage's
trace and continue with its result. -/
def stepOk (r : List Event × Except BuildError OFIQBuilder)
    (f : OFIQBuilder → List Event × Except BuildError OFIQBuilder) :
    List Event × Except BuildError OFIQBuilder :=
  match r.2 with
  | Except.error e => (r.1, Except.error e)
  | Except.ok s => (r.1 ++ (f s).1, (f s).2)

/-- `OFIQBuilder.run`: the seven stages in order, each gated on the success
of the previous; the success epilogue prints the output locations. -/
def run (w : World) (a : Args) : List Event × Except BuildError Unit :=
  let s0 := parse_arguments a initBuilder
  let p := setup_environment s0
  let r0 : List Event × Except BuildError OFIQBuilder :=
    ([Event.msg "OFIQ Python Build Script"] ++ p.1, Except.ok p.2)
  let r1 := stepOk r0 (check_prerequisites w)
  let r2 := stepOk r1 (build_dependencies w)
  let r3 := stepOk r2 (configure_cmake w)
  let r4 := stepOk r3 (build_project w)
  let r5 := stepOk r4 (verify_build w)
  match r5.2 with
  | Except.error e => (r5.1, Except.error e)
  | Except.ok s =>
    (r5.1 ++ [Event.msg "🎉 BUILD SUCCESSFUL!",
      Event.msg ("📁 Output directory: " ++ joinP root_dir s.install_dir),
      Event.msg "📄 Library: ofiq_lib.dll",
      Event.msg "🚀 Sample: OFIQSampleApp.exe"],
     Except.ok ())

end OFIQBuilder

/-- The process exit status of a finished run: 0 on success, 1 for every
`sys.exit(1)` abort. -/
def exitCode (r : Except BuildError Unit) : Nat :=
  match r with
  | Except.ok _ => 0
  | Except.error _ => 1

/-- The exit status contribution of a single stage result. -/
def stageExit (r : Except BuildError OFIQBuilder) : Nat :=
  match r with
  | Except.ok _ => 0
  | Except.error _ => 1

/-- Does this event invoke the build-file generator (a CMake configure,
`cmake -S ...`)?  Build-driver invocations (`cmake --build ...`) and
version probes do not match. -/
def isCMakeConfigure : Event → Bool
  | Event.runCmd ("cmake" :: "-S" :: _) _ => true
  | _ => false

/-- Is this event a subprocess invocation of a build command at all? -/
def isRunCmd : Event → Bool
  | Event.runCmd _ _ => true
  | _ => false

/-- The subprocess invocations of a trace, as (command, working-directory)
pairs in program order. -/
def runsOf (tr : List Event) : List (List String × String) :=
  tr.filterMap (fun ev => match ev with
    | Event.runCmd c d => some (c, d)
    | _ => none)

/-- Is this stage result the missing-dependency-trees abort? -/
def isDepsMissingRes (r : Except BuildError OFIQBuilder) : Bool :=
  match r with
  | Except.error (BuildError.depsMissing _) => true
  | _ => false

/-- Is the first character list an initial segment of the second? -/
def leadsWith : List Char → List Char → Bool
  | [], _ => true
  | _ :: _, [] => false
  | a :: as, b :: bs => a == b && leadsWith as bs

/-- Does `sub` occur as a contiguous segment of the list? -/
def subOccurs (sub : List Char) : List Char → Bool
  | [] => leadsWith sub []
  | c :: rest => leadsWith sub (c :: rest) || subOccurs sub rest

/-- Does `line` contain `tool` as a substring? -/
def mentions (line tool : String) : Bool :=
  subOccurs tool.toList line.toList

/-- No printed line of the trace mentions `tool`. -/
def noMsgMentions (tr : List Event) (tool : String) : Bool :=
  tr.all (fun ev => match ev with
    | Event.msg t => !(mentions t tool)
    | _ => true)

/-- Claim C4: the dependency stage short-circuits unconditionally under the
skip flag — its result is success and its trace is two informational lines,
with no existence check and no subprocess — and the missing-dependency abort
fires exactly when the skip flag is unset, the from-source strategy is
selected, and at least one of the three dependency trees is absent (the
ONNX Runtime tree counting as present when either the source tree or the
prebuilt tree exists). -/
theorem skip_deps_and_deps_missing_iff (w : World) (s : OFIQBuilder) :
    (isDepsMissingRes (OFIQBuilder.build_dependencies w s).2 = true ↔
      (s.skip_deps = false ∧ s.use_conan = false ∧
        (w.pathExists opencv_dir = false ∨ w.pathExists gtest_dir = false ∨
         (w.pathExists onnx_dir = false ∧ w.pathExists onnx_prebuilt = false)))) ∧
    (s.skip_deps = true →
      (OFIQBuilder.build_dependencies w s).2 = Except.ok s ∧
      (OFIQBuilder.build_dependencies w s).1 =
        [Event.msg "Skipping dependency building (--skip-deps specified)",
         Event.msg "  Using available dependencies only"]) := by
  constructor
  · cases hs : s.skip_deps
    · cases hu : s.use_conan
      · simp only [OFIQBuilder.build_dependencies, hs, hu, if_false, Bool.false_eq_true]
        unfold OFIQBuilder.build_from_source
        cases h1 : w.pathExists opencv_dir <;>
          cases h2 : w.pathExists gtest_dir <;>
            cases h3 : w.pathExists onnx_dir <;>
              cases h4 : w.pathExists onnx_prebuilt <;>
                simp [h1, h2, h3, h4, isDepsMissingRes] <;>
                  split_ifs <;> simp [isDepsMissingRes]
      · simp only [OFIQBuilder.build_dependencies, hs, hu, if_true, Bool.false_eq_true]
        unfold OFIQBuilder.build_with_conan
        cases hc : w.cmdOk (OFIQBuilder.conan_cmd s) root_dir <;>
          simp [hc, isDepsMissingRes]
    · simp [OFIQBuilder.build_dependencies, hs, isDepsMissingRes]
  · intro hs
    simp [OFIQBuilder.build_dependencies, hs]

/-- Witness for C4 at a concrete world and a builder with the skip flag. -/
theorem skip_deps_and_deps_missing_iff_witness :
    (OFIQBuilder.build_dependencies
      { probeOk := fun _ => false, versionOf := fun _ => "",
        pathExists := fun _ => false, cmdOk := fun _ _ => false,
        dirContents := fun _ => [], fileSize := fun _ => 0, isWindows := true }
      ({ initBuilder with skip_deps := true } : OFIQBuilder)).2 =
      Except.ok ({ initBuilder with skip_deps := true } : OFIQBuilder) :=
  ((skip_deps_and_deps_missing_iff _ _).2 rfl).1

/-- Claim C5: in artifact verification, a missing shared library is fatal
(the stage aborts with the missing-library error, exit status 1), and when
the install-bin directory exists its actual contents are listed first for
diagnosis; when the shared library is present the stage succeeds regardless
of whether the sample executable exists, so the sample-executable check
alone never causes a non-zero exit. -/
theorem verify_build_lib_fatal_sample_warning (w : World) (s : OFIQBuilder) :
    (w.pathExists (OFIQBuilder.ofiq_lib_path s) = false →
      (OFIQBuilder.verify_build w s).2 = Except.error BuildError.libMissing ∧
      stageExit (OFIQBuilder.verify_build w s).2 = 1 ∧
      (w.pathExists (OFIQBuilder.install_bin_dir s) = true →
        Event.listDir (OFIQBuilder.install_bin_dir s)
            (w.dirContents (OFIQBuilder.install_bin_dir s)) ∈
          (OFIQBuilder.verify_build w s).1)) ∧
    (w.pathExists (OFIQBuilder.ofiq_lib_path s) = true →
      (OFIQBuilder.verify_build w s).2 = Except.ok s ∧
      stageExit (OFIQBuilder.verify_build w s).2 = 0) := by
  constructor
  · intro hlib
    refine ⟨?_, ?_, ?_⟩
    · simp [OFIQBuilder.verify_build, hlib]
    · simp [OFIQBuilder.verify_build, hlib, stageExit]
    · intro hdir
      simp [OFIQBuilder.verify_build, hlib, hdir]
  · intro hlib
    cases hsample : w.pathExists (OFIQBuilder.sample_app_path s) <;>
      simp [OFIQBuilder.verify_build, hlib, hsample, stageExit]

/-- Witness for C5: a world with no files at all makes verification fail
with the missing-library error. -/
theorem verify_build_lib_fatal_sample_warning_witness :
    (OFIQBuilder.verify_build
      { probeOk := fun _ => false, versionOf := fun _ => "",
        pathExists := fun _ => false, cmdOk := fun _ _ => false,
        dirContents := fun _ => [], fileSize := fun _ => 0, isWindows := true }
      initBuilder).2 = Except.error BuildError.libMissing :=
  ((verify_build_lib_fatal_sample_warning _ initBuilder).1 rfl).1

set_option maxRecDepth 8192

/-- `setup_environment` only writes derived fields; the dependency-strategy
flag is preserved. -/
theorem setup_environment_use_conan (s : OFIQBuilder) :
    (OFIQBuilder.setup_environment s).2.use_conan = s.use_conan := by
  unfold OFIQBuilder.setup_environment
  by_cases h1 : s.architecture = "x86" <;>
    by_cases h2 : s.compiler_version = 16 <;>
      simp [h1, h2]

/-- Claim C3: under the package-manager strategy, when the package manager
is absent from the search path and from every fallback install location, the
whole run aborts with the conan-not-found error (exit status 1) and the
build-file generator (CMake configure) is never invoked: no event of the
run's trace is a `cmake -S` invocation. -/
theorem conan_missing_aborts_before_cmake (w : World) (a : Args)
    (h1 : a.no_conan = false) (h2 : w.probeOk "conan" = false)
    (h3 : ∀ p ∈ OFIQBuilder.conan_paths, w.pathExists p = false) :
    (OFIQBuilder.run w a).2 = Except.error BuildError.conanNotFound ∧
    exitCode (OFIQBuilder.run w a).2 = 1 ∧
    ∀ ev ∈ (OFIQBuilder.run w a).1, isCMakeConfigure ev = false := by
  have hp1 : w.pathExists "C:\\tools\\conan-2.21.0-windows-x86_64\\conan.exe" = false :=
    h3 _ (by simp [OFIQBuilder.conan_paths])
  have hp2 : w.pathExists "C:\\Program Files\\Conan\\conan.exe" = false :=
    h3 _ (by simp [OFIQBuilder.conan_paths])
  have hp3 : w.pathExists "C:\\conan\\conan.exe" = false :=
    h3 _ (by simp [OFIQBuilder.conan_paths])
  have hfall : OFIQBuilder.findConanFallback w OFIQBuilder.conan_paths =
      ([Event.checkPath "C:\\tools\\conan-2.21.0-windows-x86_64\\conan.exe",
        Event.checkPath "C:\\Program Files\\Conan\\conan.exe",
        Event.checkPath "C:\\conan\\conan.exe"], none) := by
    simp [OFIQBuilder.conan_paths, OFIQBuilder.findConanFallback, hp1, hp2, hp3]
  have huse : (OFIQBuilder.setup_environment
      (OFIQBuilder.parse_arguments a initBuilder)).2.use_conan = true := by
    rw [setup_environment_use_conan]
    simp [OFIQBuilder.parse_arguments, h1]
  have hcheck : OFIQBuilder.check_prerequisites w
      (OFIQBuilder.setup_environment (OFIQBuilder.parse_arguments a initBuilder)).2 =
      ([Event.msg "Checking prerequisites...", Event.probeTool "conan",
        Event.checkPath "C:\\tools\\conan-2.21.0-windows-x86_64\\conan.exe",
        Event.checkPath "C:\\Program Files\\Conan\\conan.exe",
        Event.checkPath "C:\\conan\\conan.exe",
        Event.msg "  ✗ conan: Not found in PATH or common locations",
        Event.msg "  Please ensure conan is installed and available in PATH, or specify the path manually"],
       Except.error BuildError.conanNotFound) := by
    simp [OFIQBuilder.check_prerequisites, huse, h2, hfall]
  have hfst : (OFIQBuilder.run w a).1 =
      [Event.msg "OFIQ Python Build Script"] ++
        (OFIQBuilder.setup_environment (OFIQBuilder.parse_arguments a initBuilder)).1 ++
        [Event.msg "Checking prerequisites...", Event.probeTool "conan",
         Event.checkPath "C:\\tools\\conan-2.21.0-windows-x86_64\\conan.exe",
         Event.checkPath "C:\\Program Files\\Conan\\conan.exe",
         Event.checkPath "C:\\conan\\conan.exe",
         Event.msg "  ✗ conan: Not found in PATH or common locations",
         Event.msg "  Please ensure conan is installed and available in PATH, or specify the path manually"] := by
    unfold OFIQBuilder.run
    simp [OFIQBuilder.stepOk, hcheck]
  have hsnd : (OFIQBuilder.run w a).2 = Except.error BuildError.conanNotFound := by
    unfold OFIQBuilder.run
    simp [OFIQBuilder.stepOk, hcheck]
  refine ⟨hsnd, by simp [hsnd, exitCode], ?_⟩
  have hall : ((OFIQBuilder.run w a).1.all (fun ev => !(isCMakeConfigure ev))) = true := by
    rw [hfst]
    rfl
  intro ev hev
  have hx := List.all_eq_true.mp hall ev hev
  simpa using hx

/-- A world in which nothing exists: every probe fails and every path is
absent. -/
def emptyWorld : World :=
  { probeOk := fun _ => false, versionOf := fun _ => "",
    pathExists := fun _ => false, cmdOk := fun _ _ => false,
    dirContents := fun _ => [], fileSize := fun _ => 0, isWindows := true }

/-- Witness for C3 at the empty world and the default command line. -/
theorem conan_missing_aborts_before_cmake_witness :
    (OFIQBuilder.run emptyWorld defaultArgs).2 = Except.error BuildError.conanNotFound :=
  (conan_missing_aborts_before_cmake emptyWorld defaultArgs rfl rfl
    (by intro p _; rfl)).1

/-- The `conan install` command line, written as a fixed head followed by
the two conditionally appended flag groups. -/
theorem conan_cmd_eq (s : OFIQBuilder) :
    OFIQBuilder.conan_cmd s =
      [s.conan_path, "install", joinP (joinP root_dir "conan") "conanfile.txt",
       "--build", "missing",
       "--profile:build", OFIQBuilder.conan_profile_path s,
       "--profile:host", OFIQBuilder.conan_profile_path s,
       "--output-folder=" ++ joinP (joinP root_dir "build") "conan"] ++
      ((if s.compiler_flags = "" then [] else s.compiler_flags.splitOn " ") ++
       (if s.conan_set_arch = "" then [] else s.conan_set_arch.splitOn " ")) := by
  unfold OFIQBuilder.conan_cmd
  by_cases hf : s.compiler_flags = "" <;> by_cases ha : s.conan_set_arch = "" <;>
    simp [hf, ha]

/-- Claim C6: the package-manager path first removes any pre-existing local
dependency cache directory (when present, the first three effects are the
existence test, the cleaning message, and the removal), selects the release
profile when the build type is Release and the debug profile otherwise,
invokes the package manager with that same profile applied to both the
build and the host context, appending the whitespace-split compiler flags
and architecture flags when non-empty, and aborts with the conan-failure
error exactly when the subprocess fails. -/
theorem conan_stage_contract (w : World) (s : OFIQBuilder) :
    (w.pathExists conan_cache_dir = true →
      (OFIQBuilder.build_with_conan w s).1.take 3 =
        [Event.checkPath conan_cache_dir, Event.msg "  Cleaning Conan cache...",
         Event.rmtree conan_cache_dir]) ∧
    Event.runCmd (OFIQBuilder.conan_cmd s) root_dir ∈
      (OFIQBuilder.build_with_conan w s).1 ∧
    (s.config = "Release" →
      OFIQBuilder.conan_profile s = "conan_profile_release.txt") ∧
    (s.config ≠ "Release" →
      OFIQBuilder.conan_profile s = "conan_profile_debug.txt") ∧
    List.IsInfix
      ["--profile:build", OFIQBuilder.conan_profile_path s,
       "--profile:host", OFIQBuilder.conan_profile_path s]
      (OFIQBuilder.conan_cmd s) ∧
    (s.compiler_flags ≠ "" →
      ∀ x ∈ s.compiler_flags.splitOn " ", x ∈ OFIQBuilder.conan_cmd s) ∧
    (s.conan_set_arch ≠ "" →
      ∀ x ∈ s.conan_set_arch.splitOn " ", x ∈ OFIQBuilder.conan_cmd s) ∧
    ((OFIQBuilder.build_with_conan w s).2 = Except.error BuildError.conanFailed ↔
      w.cmdOk (OFIQBuilder.conan_cmd s) root_dir = false) := by
  refine ⟨?_, ?_, ?_, ?_, ?_, ?_, ?_, ?_⟩
  · intro hdir
    cases hc : w.cmdOk (OFIQBuilder.conan_cmd s) root_dir <;>
      simp [OFIQBuilder.build_with_conan, hdir, hc]
  · cases hdir : w.pathExists conan_cache_dir <;>
      cases hc : w.cmdOk (OFIQBuilder.conan_cmd s) root_dir <;>
        simp [OFIQBuilder.build_with_conan, hdir, hc]
  · intro h
    simp [OFIQBuilder.conan_profile, h]
  · intro h
    simp [OFIQBuilder.conan_profile, h]
  · rw [conan_cmd_eq]
    exact ⟨[s.conan_path, "install", joinP (joinP root_dir "conan") "conanfile.txt",
      "--build", "missing"],
      ["--output-folder=" ++ joinP (joinP root_dir "build") "conan"] ++
        ((if s.compiler_flags = "" then [] else s.compiler_flags.splitOn " ") ++
         (if s.conan_set_arch = "" then [] else s.conan_set_arch.splitOn " ")),
      by simp⟩
  · intro hf x hx
    rw [conan_cmd_eq]
    simp [hf, hx]
  · intro ha x hx
    rw [conan_cmd_eq]
    simp [ha, hx]
  · cases hdir : w.pathExists conan_cache_dir <;>
      cases hc : w.cmdOk (OFIQBuilder.conan_cmd s) root_dir <;>
        simp [OFIQBuilder.build_with_conan, hdir, hc]

/-- A world in which every path exists and every subprocess succeeds. -/
def richWorld : World :=
  { probeOk := fun _ => true, versionOf := fun _ => "2.0",
    pathExists := fun _ => true, cmdOk := fun _ _ => true,
    dirContents := fun _ => [], fileSize := fun _ => 42, isWindows := true }

/-- Witness for C6: with the cache directory present, the stage removes it
before anything else. -/
theorem conan_stage_contract_witness :
    (OFIQBuilder.build_with_conan richWorld initBuilder).1.take 3 =
      [Event.checkPath conan_cache_dir, Event.msg "  Cleaning Conan cache...",
       Event.rmtree conan_cache_dir] :=
  (conan_stage_contract richWorld initBuilder).1 rfl

/-- Claim C7: under the from-source strategy with all three dependency
trees present and the skip flag unset, the subprocess invocations of the
dependency stage are exactly a prefix of the fixed sequence OpenCV
configure, OpenCV build, GoogleTest configure, GoogleTest build, ONNX
Runtime build; each invocation happens only if every earlier one succeeded,
the first failure aborts the stage with the corresponding fatal error so no
later dependency build is attempted, and when all five succeed the stage
completes successfully having run the whole sequence. -/
theorem from_source_order_and_gating (w : World) (s : OFIQBuilder)
    (hskip : s.skip_deps = false) (hconan : s.use_conan = false)
    (h1 : w.pathExists opencv_dir = true) (h2 : w.pathExists gtest_dir = true)
    (h3 : w.pathExists onnx_dir = true ∨ w.pathExists onnx_prebuilt = true) :
    (w.cmdOk (OFIQBuilder.opencv_cfg_cmd s) opencv_dir = false →
      runsOf (OFIQBuilder.build_dependencies w s).1 =
        [(OFIQBuilder.opencv_cfg_cmd s, opencv_dir)] ∧
      (OFIQBuilder.build_dependencies w s).2 = Except.error BuildError.opencvFailed) ∧
    (w.cmdOk (OFIQBuilder.opencv_cfg_cmd s) opencv_dir = true →
     w.cmdOk (OFIQBuilder.opencv_build_cmd s) opencv_dir = false →
      runsOf (OFIQBuilder.build_dependencies w s).1 =
        [(OFIQBuilder.opencv_cfg_cmd s, opencv_dir),
         (OFIQBuilder.opencv_build_cmd s, opencv_dir)] ∧
      (OFIQBuilder.build_dependencies w s).2 = Except.error BuildError.opencvFailed) ∧
    (w.cmdOk (OFIQBuilder.opencv_cfg_cmd s) opencv_dir = true →
     w.cmdOk (OFIQBuilder.opencv_build_cmd s) opencv_dir = true →
     w.cmdOk (OFIQBuilder.gtest_cfg_cmd s) gtest_dir = false →
      runsOf (OFIQBuilder.build_dependencies w s).1 =
        [(OFIQBuilder.opencv_cfg_cmd s, opencv_dir),
         (OFIQBuilder.opencv_build_cmd s, opencv_dir),
         (OFIQBuilder.gtest_cfg_cmd s, gtest_dir)] ∧
      (OFIQBuilder.build_dependencies w s).2 = Except.error BuildError.gtestFailed) ∧
    (w.cmdOk (OFIQBuilder.opencv_cfg_cmd s) opencv_dir = true →
     w.cmdOk (OFIQBuilder.opencv_build_cmd s) opencv_dir = true →
     w.cmdOk (OFIQBuilder.gtest_cfg_cmd s) gtest_dir = true →
     w.cmdOk (OFIQBuilder.gtest_build_cmd s) gtest_dir = false →
      runsOf (OFIQBuilder.build_dependencies w s).1 =
        [(OFIQBuilder.opencv_cfg_cmd s, opencv_dir),
         (OFIQBuilder.opencv_build_cmd s, opencv_dir),
         (OFIQBuilder.gtest_cfg_cmd s, gtest_dir),
         (OFIQBuilder.gtest_build_cmd s, gtest_dir)] ∧
      (OFIQBuilder.build_dependencies w s).2 = Except.error BuildError.gtestFailed) ∧
    (w.cmdOk (OFIQBuilder.opencv_cfg_cmd s) opencv_dir = true →
     w.cmdOk (OFIQBuilder.opencv_build_cmd s) opencv_dir = true →
     w.cmdOk (OFIQBuilder.gtest_cfg_cmd s) gtest_dir = true →
     w.cmdOk (OFIQBuilder.gtest_build_cmd s) gtest_dir = true →
     w.cmdOk (OFIQBuilder.onnx_cmd s) onnx_dir = false →
      runsOf (OFIQBuilder.build_dependencies w s).1 =
        [(OFIQBuilder.opencv_cfg_cmd s, opencv_dir),
         (OFIQBuilder.opencv_build_cmd s, opencv_dir),
         (OFIQBuilder.gtest_cfg_cmd s, gtest_dir),
         (OFIQBuilder.gtest_build_cmd s, gtest_dir),
         (OFIQBuilder.onnx_cmd s, onnx_dir)] ∧
      (OFIQBuilder.build_dependencies w s).2 = Except.error BuildError.onnxFailed) ∧
    (w.cmdOk (OFIQBuilder.opencv_cfg_cmd s) opencv_dir = true →
     w.cmdOk (OFIQBuilder.opencv_build_cmd s) opencv_dir = true →
     w.cmdOk (OFIQBuilder.gtest_cfg_cmd s) gtest_dir = true →
     w.cmdOk (OFIQBuilder.gtest_build_cmd s) gtest_dir = true →
     w.cmdOk (OFIQBuilder.onnx_cmd s) onnx_dir = true →
      runsOf (OFIQBuilder.build_dependencies w s).1 =
        [(OFIQBuilder.opencv_cfg_cmd s, opencv_dir),
         (OFIQBuilder.opencv_build_cmd s, opencv_dir),
         (OFIQBuilder.gtest_cfg_cmd s, gtest_dir),
         (OFIQBuilder.gtest_build_cmd s, gtest_dir),
         (OFIQBuilder.onnx_cmd s, onnx_dir)] ∧
      (OFIQBuilder.build_dependencies w s).2 = Except.ok s) := by
  refine ⟨?_, ?_, ?_, ?_, ?_, ?_⟩ <;>
    · intros
      rcases h3 with honnx | honnx <;>
        [skip; cases hon : w.pathExists onnx_dir] <;>
          cases hbdir : w.pathExists (joinP opencv_dir "build") <;>
            simp_all [OFIQBuilder.build_dependencies, OFIQBuilder.build_from_source,
              runsOf]

/-- Witness for C7: with everything present and every subprocess
succeeding, the dependency stage runs exactly the five invocations in
order and succeeds. -/
theorem from_source_order_and_gating_witness :
    runsOf (OFIQBuilder.build_dependencies richWorld
        ({ initBuilder with use_conan := false } : OFIQBuilder)).1 =
      [(OFIQBuilder.opencv_cfg_cmd ({ initBuilder with use_conan := false } : OFIQBuilder),
        opencv_dir),
       (OFIQBuilder.opencv_build_cmd ({ initBuilder with use_conan := false } : OFIQBuilder),
        opencv_dir),
       (OFIQBuilder.gtest_cfg_cmd ({ initBuilder with use_conan := false } : OFIQBuilder),
        gtest_dir),
       (OFIQBuilder.gtest_build_cmd ({ initBuilder with use_conan := false } : OFIQBuilder),
        gtest_dir),
       (OFIQBuilder.onnx_cmd ({ initBuilder with use_conan := false } : OFIQBuilder),
        onnx_dir)] :=
  ((from_source_order_and_gating richWorld
      ({ initBuilder with use_conan := false } : OFIQBuilder)
      rfl rfl rfl rfl (Or.inl rfl)).2.2.2.2.2 rfl rfl rfl rfl rfl).1

/-- Claim C10: under the from-source strategy, when only the prebuilt ONNX
Runtime tree exists (the source tree is absent) and the other dependency
trees are present, the presence check passes — the missing-dependency abort
does not fire — yet, provided the earlier dependency builds succeed, the
ONNX Runtime build invocation is still issued with the non-existent source
tree as its working directory rather than being skipped. -/
theorem onnx_prebuilt_check_but_source_build (w : World) (s : OFIQBuilder)
    (hskip : s.skip_deps = false) (hconan : s.use_conan = false)
    (h1 : w.pathExists opencv_dir = true) (h2 : w.pathExists gtest_dir = true)
    (h3 : w.pathExists onnx_dir = false) (h4 : w.pathExists onnx_prebuilt = true)
    (hc1 : w.cmdOk (OFIQBuilder.opencv_cfg_cmd s) opencv_dir = true)
    (hc2 : w.cmdOk (OFIQBuilder.opencv_build_cmd s) opencv_dir = true)
    (hc3 : w.cmdOk (OFIQBuilder.gtest_cfg_cmd s) gtest_dir = true)
    (hc4 : w.cmdOk (OFIQBuilder.gtest_build_cmd s) gtest_dir = true) :
    isDepsMissingRes (OFIQBuilder.build_dependencies w s).2 = false ∧
    Event.runCmd (OFIQBuilder.onnx_cmd s) onnx_dir ∈
      (OFIQBuilder.build_dependencies w s).1 := by
  cases hbdir : w.pathExists (joinP opencv_dir "build") <;>
    cases hc5 : w.cmdOk (OFIQBuilder.onnx_cmd s) onnx_dir <;>
      simp_all [OFIQBuilder.build_dependencies, OFIQBuilder.build_from_source,
        isDepsMissingRes]

/-- A world in which every path except the ONNX Runtime source tree exists
and every subprocess succeeds. -/
def prebuiltOnlyWorld : World :=
  { probeOk := fun _ => true, versionOf := fun _ => "3.30",
    pathExists := fun p => p != onnx_dir, cmdOk := fun _ _ => true,
    dirContents := fun _ => [], fileSize := fun _ => 7, isWindows := true }

/-- Witness for C10 at the prebuilt-only world. -/
theorem onnx_prebuilt_check_but_source_build_witness :
    Event.runCmd (OFIQBuilder.onnx_cmd ({ initBuilder with use_conan := false } : OFIQBuilder))
        onnx_dir ∈
      (OFIQBuilder.build_dependencies prebuiltOnlyWorld
        ({ initBuilder with use_conan := false } : OFIQBuilder)).1 :=
  (onnx_prebuilt_check_but_source_build prebuiltOnlyWorld
    ({ initBuilder with use_conan := false } : OFIQBuilder)
    rfl rfl (by decide) (by decide) (by decide) (by decide)
    rfl rfl rfl rfl).2

/-- The fallback search reads only the filesystem and probe oracles, so the
platform flag does not affect it. -/
theorem findConanFallback_isWindows (w : World) (b : Bool) (l : List String) :
    OFIQBuilder.findConanFallback { w with isWindows := b } l =
      OFIQBuilder.findConanFallback w l := by
  induction l with
  | nil => rfl
  | cons p rest ih => simp [OFIQBuilder.findConanFallback, ih]

/-- The result (success/abort and resulting state) of the prerequisite
check does not depend on the platform flag; only the warning line in the
trace does. -/
theorem check_prerequisites_isWindows_snd (w : World) (b : Bool) (s : OFIQBuilder) :
    (OFIQBuilder.check_prerequisites { w with isWindows := b } s).2 =
      (OFIQBuilder.check_prerequisites w s).2 := by
  have hff := findConanFallback_isWindows w b OFIQBuilder.conan_paths
  cases hu : s.use_conan <;> cases hpc : w.probeOk "cmake" <;>
    cases hp : w.probeOk "conan" <;>
      rcases hf : OFIQBuilder.findConanFallback w OFIQBuilder.conan_paths with ⟨evs, _ | p⟩ <;>
        simp_all [OFIQBuilder.check_prerequisites, OFIQBuilder.required_tools]

/-- The result component of a sequenced stage depends only on the previous
result and the stage function. -/
theorem stepOk_snd (r : List Event × Except BuildError OFIQBuilder)
    (f : OFIQBuilder → List Event × Except BuildError OFIQBuilder) :
    (OFIQBuilder.stepOk r f).2 =
      match r.2 with
      | Except.error e => Except.error e
      | Except.ok s => (f s).2 := by
  rcases r with ⟨tr, e | s⟩ <;> rfl

/-- The final result of a whole run does not depend on the platform flag. -/
theorem run_isWindows_snd (w : World) (b : Bool) (a : Args) :
    (OFIQBuilder.run { w with isWindows := b } a).2 = (OFIQBuilder.run w a).2 := by
  have Hbd : OFIQBuilder.build_dependencies { w with isWindows := b } =
      OFIQBuilder.build_dependencies w := funext fun _ => rfl
  have Hcf : OFIQBuilder.configure_cmake { w with isWindows := b } =
      OFIQBuilder.configure_cmake w := funext fun _ => rfl
  have Hbp : OFIQBuilder.build_project { w with isWindows := b } =
      OFIQBuilder.build_project w := funext fun _ => rfl
  have Hvb : OFIQBuilder.verify_build { w with isWindows := b } =
      OFIQBuilder.verify_build w := funext fun _ => rfl
  have hc := check_prerequisites_isWindows_snd w b
    (OFIQBuilder.setup_environment (OFIQBuilder.parse_arguments a initBuilder)).2
  unfold OFIQBuilder.run
  rw [Hbd, Hcf, Hbp, Hvb]
  rcases h1 : (OFIQBuilder.check_prerequisites w
      (OFIQBuilder.setup_environment (OFIQBuilder.parse_arguments a initBuilder)).2).2
    with e | s1
  · rw [h1] at hc
    simp [OFIQBuilder.stepOk, hc, h1]
  · rw [h1] at hc
    simp only [OFIQBuilder.stepOk, hc, h1]
    rcases h2 : (OFIQBuilder.build_dependencies w s1).2 with e2 | s2
    · simp [h2]
    · simp only [h2]
      rcases h3 : (OFIQBuilder.configure_cmake w s2).2 with e3 | s3
      · simp [h3]
      · simp only [h3]
        rcases h4 : (OFIQBuilder.build_project w s3).2 with e4 | s4
        · simp [h4]
        · simp only [h4]
          rcases h5 : (OFIQBuilder.verify_build w s4).2 with e5 | s5
          · simp [h5]
          · simp [h5]

/-- Claim C9: running on a non-Windows platform never by itself causes the
prerequisite check or the whole run to fail: the check result and the run
result are unchanged by the platform flag, and on a non-Windows platform
with the tools available the checker still succeeds and still prints that
all prerequisites are satisfied (the platform test contributes a warning
only). -/
theorem non_windows_never_fails (w : World) (s : OFIQBuilder) (a : Args) (b : Bool) :
    ((OFIQBuilder.check_prerequisites { w with isWindows := b } s).2 =
      (OFIQBuilder.check_prerequisites w s).2) ∧
    ((OFIQBuilder.run { w with isWindows := b } a).2 = (OFIQBuilder.run w a).2) ∧
    (w.isWindows = false → w.probeOk "cmake" = true →
      (s.use_conan = false ∨ w.probeOk "conan" = true) →
      (∃ s2, (OFIQBuilder.check_prerequisites w s).2 = Except.ok s2) ∧
      Event.msg "✓ All prerequisites satisfied" ∈
        (OFIQBuilder.check_prerequisites w s).1) := by
  refine ⟨check_prerequisites_isWindows_snd w b s, run_isWindows_snd w b a, ?_⟩
  intro hwin hcmake hconanOr
  cases hu : s.use_conan
  · refine ⟨⟨s, ?_⟩, ?_⟩ <;>
      simp [OFIQBuilder.check_prerequisites, hu, OFIQBuilder.required_tools,
        hcmake, hwin]
  · have hp : w.probeOk "conan" = true := by
      rcases hconanOr with h | h
      · rw [hu] at h
        cases h
      · exact h
    refine ⟨⟨{ s with conan_path := "conan" }, ?_⟩, ?_⟩ <;>
      simp [OFIQBuilder.check_prerequisites, hu, hp, OFIQBuilder.required_tools,
        hcmake, hwin]

/-- Witness for C9: on a non-Windows world with every tool available, the
checker still reports success. -/
theorem non_windows_never_fails_witness :
    Event.msg "✓ All prerequisites satisfied" ∈
      (OFIQBuilder.check_prerequisites ({ richWorld with isWindows := false } : World)
        initBuilder).1 :=
  ((non_windows_never_fails ({ richWorld with isWindows := false } : World)
    initBuilder defaultArgs false).2.2 rfl rfl (Or.inr rfl)).2

/-- Counterexample to claim C8 as stated: with the package-manager strategy
selected and both conan and cmake missing everywhere, the run fails with
non-zero status, yet no line of its diagnostic output mentions the missing
required tool cmake — the checker exits at the conan search before cmake is
ever probed, so not every missing required tool appears in the diagnostic of
that failing run. -/
theorem missing_cmake_unlisted_when_conan_missing :
    emptyWorld.probeOk "cmake" = false ∧
    exitCode (OFIQBuilder.run emptyWorld defaultArgs).2 = 1 ∧
    noMsgMentions (OFIQBuilder.run emptyWorld defaultArgs).1 "cmake" = true := by
  refine ⟨rfl, rfl, ?_⟩
  decide

/-- Claim C8 (amended): a missing required tool always terminates the
checker with non-zero status; when the package manager is in use and absent
from every search location, the checker exits naming the package manager in
its diagnostic (before the remaining tools are probed, so those may go
unmentioned); once the package-manager phase does not abort — it is unused,
found in the search path, or found at a fallback install location — every
missing always-required tool is listed in the failing diagnostic, both
per-tool and in the summary line. -/
theorem prereq_missing_tool_diagnostics (w : World) (s : OFIQBuilder) :
    (s.use_conan = true → w.probeOk "conan" = false →
      (∀ p ∈ OFIQBuilder.conan_paths, w.pathExists p = false) →
      (OFIQBuilder.check_prerequisites w s).2 = Except.error BuildError.conanNotFound ∧
      Event.msg "  ✗ conan: Not found in PATH or common locations" ∈
        (OFIQBuilder.check_prerequisites w s).1) ∧
    ((OFIQBuilder.check_prerequisites w s).2 ≠ Except.error BuildError.conanNotFound →
      w.probeOk "cmake" = false →
      (OFIQBuilder.check_prerequisites w s).2 =
        Except.error (BuildError.missingTools ["cmake"]) ∧
      Event.msg "  ✗ cmake: Not found" ∈ (OFIQBuilder.check_prerequisites w s).1 ∧
      Event.msg "Error: Missing required tools: cmake" ∈
        (OFIQBuilder.check_prerequisites w s).1) := by
  constructor
  · intro hu hconan h3
    have hp1 : w.pathExists "C:\\tools\\conan-2.21.0-windows-x86_64\\conan.exe" = false :=
      h3 _ (by simp [OFIQBuilder.conan_paths])
    have hp2 : w.pathExists "C:\\Program Files\\Conan\\conan.exe" = false :=
      h3 _ (by simp [OFIQBuilder.conan_paths])
    have hp3 : w.pathExists "C:\\conan\\conan.exe" = false :=
      h3 _ (by simp [OFIQBuilder.conan_paths])
    have hfall : OFIQBuilder.findConanFallback w OFIQBuilder.conan_paths =
        ([Event.checkPath "C:\\tools\\conan-2.21.0-windows-x86_64\\conan.exe",
          Event.checkPath "C:\\Program Files\\Conan\\conan.exe",
          Event.checkPath "C:\\conan\\conan.exe"], none) := by
      simp [OFIQBuilder.conan_paths, OFIQBuilder.findConanFallback, hp1, hp2, hp3]
    constructor <;> simp [OFIQBuilder.check_prerequisites, hu, hconan, hfall]
  · intro hno hcmake
    have hmsg : ("Error: Missing required tools: " ++ String.intercalate ", " ["cmake"]) =
        "Error: Missing required tools: cmake" := by decide
    cases hu : s.use_conan
    · refine ⟨?_, ?_, ?_⟩ <;>
        simp [OFIQBuilder.check_prerequisites, hu, OFIQBuilder.required_tools,
          hcmake, hmsg]
    · cases hp : w.probeOk "conan"
      · rcases hfall : OFIQBuilder.findConanFallback w OFIQBuilder.conan_paths
          with ⟨evs, r⟩
        cases r
        · exact absurd (by simp [OFIQBuilder.check_prerequisites, hu, hp, hfall]) hno
        · refine ⟨?_, ?_, ?_⟩ <;>
            simp [OFIQBuilder.check_prerequisites, hu, hp, hfall,
              OFIQBuilder.required_tools, hcmake, hmsg]
      · refine ⟨?_, ?_, ?_⟩ <;>
          simp [OFIQBuilder.check_prerequisites, hu, hp, OFIQBuilder.required_tools,
            hcmake, hmsg]

/-- A world in which only the package manager is available. -/
def conanOnlyWorld : World :=
  { probeOk := fun t => t == "conan", versionOf := fun _ => "2.21.0",
    pathExists := fun _ => false, cmdOk := fun _ _ => false,
    dirContents := fun _ => [], fileSize := fun _ => 0, isWindows := true }

/-- Witness for the amended C8: conan present, cmake missing — the checker
aborts naming cmake. -/
theorem prereq_missing_tool_diagnostics_witness :
    (OFIQBuilder.check_prerequisites conanOnlyWorld initBuilder).2 =
      Except.error (BuildError.missingTools ["cmake"]) :=
  ((prereq_missing_tool_diagnostics conanOnlyWorld initBuilder).2
    (by
      intro h
      rw [show (OFIQBuilder.check_prerequisites conanOnlyWorld initBuilder).2 =
          Except.error (BuildError.missingTools ["cmake"]) from rfl] at h
      simp at h)
    rfl).1

/-- Witness for the amended C2: at the default builder, the generator is
unaffected by the architecture switch. -/
theorem arch_switch_field_effects_witness :
    (OFIQBuilder.setup_environment
        ({ initBuilder with architecture := "x86" } : OFIQBuilder)).2.generator =
      (OFIQBuilder.setup_environment
        ({ initBuilder with architecture := "x64" } : OFIQBuilder)).2.generator :=
  (arch_switch_field_effects initBuilder).2.2.2.2.1
